import Mathlib

/-!
Shallow embedding of the trello-api backend (Express + Mongoose handlers).

The repository's handlers are asynchronous functions over a document store;
here each handler is a pure function from its request parameters and a
database snapshot to the pair (HTTP status code, resulting snapshot) —
or, for list endpoints, (status, returned list).  Identifiers (Mongo
ObjectIds) are modelled as `Nat`, dates as `Nat` millisecond timestamps,
and enum-like strings (`status`, `role`) as `String`, exactly as the
JavaScript compares them.
-/

namespace TrelloApi

/-- Embedding of JavaScript's `String.prototype.toLowerCase` (ASCII-relevant part),
as used on emails throughout the code. -/
def jsToLowerCase (s : String) : String := ⟨s.data.map Char.toLower⟩

/-- Whitespace test used by the embedding of `String.prototype.trim`. -/
def isJsSpace (c : Char) : Bool := c == ' ' || c == '\t' || c == '\n' || c == '\r'

/-- Embedding of JavaScript's `String.prototype.trim`. -/
def jsTrim (s : String) : String :=
  ⟨((s.data.dropWhile isJsSpace).reverse.dropWhile isJsSpace).reverse⟩

/-- The email normalisation `email.toLowerCase().trim()` applied by `sendInvite`,
`register` and `login`, and by the `lowercase`/`trim` options of the team schema. -/
def normEmail (s : String) : String := jsTrim (jsToLowerCase s)

/-- Embedding of `email.includes('@')` (also false for the empty/absent email,
matching the `!email || !email.includes('@')` guard). -/
def jsIncludesAtSign (s : String) : Bool := s.data.contains '@'

/-- A user document (`users` collection).  The password field stands for the
stored bcrypt hash; `bcrypt.compare` is modelled as equality with it. -/
structure UserRec where
  id : Nat
  name : String
  email : String
  password : String
  role : String
deriving Repr, DecidableEq

/-- A team-invitation document, following `team.model.js` (`teams` collection):
inviter, optional linked member, normalised invited email, status
(`invited`/`accepted`/`declined`), single-use token with expiry, timestamps. -/
structure TeamRec where
  id : Nat
  inviting_id : Nat
  member_id : Option Nat
  invitedEmail : String
  status : String
  invitationToken : String
  invitedAt : Nat
  acceptedAt : Option Nat
  tokenExpiresAt : Nat
deriving Repr, DecidableEq

/-- A workspace member entry: user reference plus workspace role. -/
structure WsMember where
  user : Nat
  role : String
deriving Repr, DecidableEq

/-- A workspace document: member list with per-member roles. -/
structure WorkspaceRec where
  id : Nat
  members : List WsMember
deriving Repr, DecidableEq

/-- A board document: owning workspace, owner, member list. -/
structure BoardRec where
  id : Nat
  title : String
  description : String
  workspace : Nat
  owner : Nat
  members : List Nat
deriving Repr, DecidableEq

/-- A task document: owning board, assignees, creator. -/
structure TaskRec where
  id : Nat
  title : String
  description : String
  status : String
  board : Nat
  assignedTo : List Nat
  createdBy : Nat
deriving Repr, DecidableEq

/-- A database snapshot: the collections the verified handlers touch. -/
structure DB where
  users : List UserRec
  teams : List TeamRec
  workspaces : List WorkspaceRec
  boards : List BoardRec
  tasks : List TaskRec
deriving Repr, DecidableEq

/-- Embedding of JavaScript `x || dflt` applied to an optional string field
(missing and empty string both fall back to the default). -/
def jsOrDefault (s : Option String) (dflt : String) : String :=
  match s with
  | none => dflt
  | some v => if v == "" then dflt else v

/-! ## authController (`register`, `login`) -/

/-- The linking update applied by `register`'s `Team.updateMany`: every record
with the matching normalised email and a null member link gets `member_id`
set to the new user, regardless of status. -/
def registerLink (email : String) (uid : Nat) (t : TeamRec) : TeamRec :=
  if t.invitedEmail == normEmail email && t.member_id.isNone
  then { t with member_id := some uid } else t

/-- The user document built at registration (role defaulting to `user`). -/
def mkUserRec (name email password : String) (role : Option String) (newId : Nat) : UserRec :=
  { id := newId, name := name, email := email, password := password,
    role := jsOrDefault role "user" }

/-- Handler `register` from the auth controller: rejects an existing email with
400, otherwise creates the user, backfills matching null-linked invitation
records (any status), and responds with the token payload (200). -/
def register (name email password : String) (role : Option String) (newId : Nat)
    (db : DB) : Nat × DB :=
  match db.users.find? (fun u => u.email == email) with
  | some _ => (400, db)
  | none =>
    let user : UserRec := mkUserRec name email password role newId
    let db1 : DB := { db with users := db.users ++ [user] }
    (200, { db1 with teams := db1.teams.map (registerLink email newId) })

/-- The linking update applied by `login`'s `Team.updateMany`: only records with
the matching normalised email, a null member link AND status `accepted` are
linked. -/
def loginLink (email : String) (uid : Nat) (t : TeamRec) : TeamRec :=
  if t.invitedEmail == normEmail email && t.member_id.isNone && t.status == "accepted"
  then { t with member_id := some uid } else t

/-- Handler `login` from the auth controller: 400 on unknown email or password
mismatch; on success backfills matching null-linked `accepted` invitation
records and responds 200. -/
def login (email password : String) (db : DB) : Nat × DB :=
  match db.users.find? (fun u => u.email == email) with
  | none => (400, db)
  | some u =>
    if password == u.password then
      (200, { db with teams := db.teams.map (loginLink email u.id) })
    else (400, db)

/-! ## userController (`createUser`, `sendInvite`, `acceptInvitation`,
`getAllUsers`) -/

/-- Modelled from the spec: `user.model.js` is not under `src/`; the spec's data
model declares the user `email (unique)`, so `User.create` raises a duplicate-key
error exactly when a user with the same email already exists. -/
def userEmailTaken (email : String) (db : DB) : Bool :=
  db.users.any (fun u => u.email == email)

/-- Handler `createUser` from the user controller (behind `POST /users`): it
performs no duplicate-email check of its own, so when the unique email index
rejects the insert the thrown error reaches the handler's catch, which
responds 500; otherwise the user is created and 201 returned. -/
def createUser (name email password : String) (role : Option String) (newId : Nat)
    (db : DB) : Nat × DB :=
  if userEmailTaken email db then (500, db)
  else (201, { db with users := db.users ++ [mkUserRec name email password role newId] })

/-- Whether `Team.create r` raises a duplicate-key error (code 11000): the team
schema has a unique index on `invitationToken` and a unique compound index on
`(inviting_id, invitedEmail)`. -/
def teamCreateThrows (r : TeamRec) (db : DB) : Bool :=
  db.teams.any (fun t =>
    t.inviting_id == r.inviting_id && t.invitedEmail == r.invitedEmail) ||
  db.teams.any (fun t => t.invitationToken == r.invitationToken)

/-- The invitation record `sendInvite` builds for `Team.create`. -/
def mkInviteRec (reqId : Nat) (memberOpt : Option Nat) (ne tok : String)
    (newRecId now : Nat) : TeamRec :=
  { id := newRecId, inviting_id := reqId, member_id := memberOpt,
    invitedEmail := ne, status := "invited", invitationToken := tok,
    invitedAt := now, acceptedAt := none,
    tokenExpiresAt := now + 7 * 24 * 60 * 60 * 1000 }

/-- Handler `sendInvite` from the user controller: 400 on an invalid email;
if an `invited`/`accepted` record for (inviter, normalised email) exists,
the accepted case is 400 and the pending case resends without creating;
otherwise a fresh `invited` record is created (linking `member_id` when a
user with that email exists).  A duplicate-key error on create is retried
once with the fresh token `retryTok`; a second duplicate-key error reaches
the outer catch, which answers 400. -/
def sendInvite (reqId : Nat) (email : String) (newRecId : Nat) (tok retryTok : String)
    (now : Nat) (db : DB) : Nat × DB :=
  if !(jsIncludesAtSign email) then (400, db)
  else
    let ne := normEmail email
    match db.teams.find? (fun t =>
        t.inviting_id == reqId && t.invitedEmail == ne &&
        (t.status == "invited" || t.status == "accepted")) with
    | some existingInvitation =>
      if existingInvitation.status == "accepted" then (400, db)
      else (200, db)
    | none =>
      let existingUser := db.users.find? (fun u => u.email == ne)
      let rec1 := mkInviteRec reqId (existingUser.map (fun u => u.id)) ne tok newRecId now
      if teamCreateThrows rec1 db then
        let rec2 := { rec1 with invitationToken := retryTok }
        if teamCreateThrows rec2 db then (400, db)
        else (200, { db with teams := db.teams ++ [rec2] })
      else (200, { db with teams := db.teams ++ [rec1] })

/-- Handler `acceptInvitation` (public `GET /users/accept-invitation?token=`):
400 on a missing token; looks up by token with status `invited` (404 when
absent — "Invitation not found or already accepted/declined"); 400 when the
stored expiry has passed; otherwise flips the record to `accepted`, stamps
`acceptedAt`, and backfills `member_id` by email when still null. -/
def acceptInvitation (token : String) (now : Nat) (db : DB) : Nat × DB :=
  if token == "" then (400, db)
  else
    match db.teams.find? (fun t =>
        t.invitationToken == token && t.status == "invited") with
    | none => (404, db)
    | some t =>
      if now > t.tokenExpiresAt then (400, db)
      else
        let newMember : Option Nat :=
          match t.member_id with
          | some m => some m
          | none => (db.users.find? (fun u => u.email == t.invitedEmail)).map (fun u => u.id)
        let t' : TeamRec :=
          { t with status := "accepted", acceptedAt := some now, member_id := newMember }
        (200, { db with teams := db.teams.map (fun r => if r.id == t.id then t' else r) })

/-- The user-shaped entry both listing endpoints build from a team record and
the populated member document. -/
structure MemberEntry where
  uid : Nat
  name : String
  email : String
  role : String
  invitedAt : Nat
  acceptedAt : Option Nat
  status : String
deriving Repr, DecidableEq

/-- Entry construction shared by `getAllUsers` and `getMyTeamMembers`. -/
def entryOfRecord (t : TeamRec) (mu : UserRec) : MemberEntry :=
  { uid := mu.id, name := mu.name, email := mu.email, role := mu.role,
    invitedAt := t.invitedAt, acceptedAt := t.acceptedAt, status := t.status }

/-- The `matches` guard of `getAllUsers`' post-populate filter.  It computes
`rawInvitingId = team._doc?.inviting_id?.toString() || team.inviting_id?.toString()`
and compares the result (falling back to the populated extraction only when
that is falsy) with `currentUserIdStr`.  The query always runs
`.populate('inviting_id', 'name email')`, which replaces the raw `_doc`
value by the populated inviter document; a mongoose document's `toString()`
is an inspect-style rendering of the whole document, never the bare 24-hex
id string, so when the inviter exists `rawInvitingId` is a truthy non-id
string and the comparison fails; when the inviter was deleted the populate
left `null` and both alternatives are undefined, so the comparison fails
too.  The guard is therefore false for every record and every database. -/
def rawInvitingIdMatches (t : TeamRec) (db : DB) (reqId : Nat) : Bool := false

/-- Handler `getAllUsers` (behind `GET /users`): queries team records with
`inviting_id` equal to the requester, non-null `member_id` and status
`invited` or `accepted`, drops records whose member user no longer exists
(the `!team.member_id._id` check after populate), and keeps a record only
when the `rawInvitingIdMatches` guard holds — which it never does, so the
handler answers 200 with an empty list on every input.  The requester's
global role is never consulted. -/
def getAllUsers (reqId : Nat) (reqRole : String) (db : DB) : Nat × List MemberEntry :=
  let recs := db.teams.filter (fun t =>
    t.inviting_id == reqId && t.member_id.isSome &&
    (t.status == "invited" || t.status == "accepted"))
  let users := recs.filterMap (fun t =>
    match t.member_id with
    | none => none
    | some mid =>
      match db.users.find? (fun u => u.id == mid) with
      | none => none
      | some mu =>
        if rawInvitingIdMatches t db reqId then some (entryOfRecord t mu) else none)
  (200, users)

/-! ## teamController (`getMyTeamMembers`, `addMember`) -/

/-- Handler `getMyTeamMembers` (`GET /teams/members`): queries team records with
`inviting_id` equal to the requester, non-null `member_id` and status exactly
`accepted`; each surviving record must also populate both its member and its
inviter (a record whose member or inviter user no longer exists is dropped by
the post-populate filter).  The requester's global role is never consulted. -/
def getMyTeamMembers (reqId : Nat) (reqRole : String) (db : DB) : Nat × List MemberEntry :=
  let recs := db.teams.filter (fun t =>
    t.inviting_id == reqId && t.member_id.isSome && t.status == "accepted")
  let users := recs.filterMap (fun t =>
    match t.member_id with
    | none => none
    | some mid =>
      match db.users.find? (fun u => u.id == mid) with
      | none => none
      | some mu =>
        if (db.users.find? (fun u => u.id == t.inviting_id)).isSome
        then some (entryOfRecord t mu) else none)
  (200, users)

/-- Handler `addMember` from the team controller (`POST /teams/:teamId/add`).
It loads a document from the `teams` collection — whose schema is the
invitation schema of `team.model.js` — and immediately reads
`team.createdBy.toString()`; `createdBy` is not a schema path, the read
yields `undefined`, and the `.toString()` call throws, which the handler's
catch turns into a 500 response.  It therefore fails on every found team
record and never mutates state. -/
def addMember (reqId : Nat) (reqRole : String) (teamId userId : Nat) (db : DB) : Nat × DB :=
  match db.teams.find? (fun t => t.id == teamId) with
  | none => (404, db)
  | some _ => (500, db)

/-! ## boardController (`createBoard`, `updateBoard`, `sendBoardInvite`) -/

/-- Handler `createBoard`: 400 without a workspace id, 404 on a missing
workspace, 403 when the requester is neither a workspace member nor a global
admin; otherwise creates the board with the requester as owner and sole
member. -/
def createBoard (reqId : Nat) (reqRole : String) (workspaceId : Option Nat)
    (title description : String) (newBoardId : Nat) (db : DB) : Nat × DB :=
  match workspaceId with
  | none => (400, db)
  | some wid =>
    match db.workspaces.find? (fun w => w.id == wid) with
    | none => (404, db)
    | some w =>
      if !(w.members.any (fun m => m.user == reqId)) && reqRole != "admin" then (403, db)
      else
        let b : BoardRec :=
          { id := newBoardId, title := title, description := description,
            workspace := wid, owner := reqId, members := [reqId] }
        (200, { db with boards := db.boards ++ [b] })

/-- The `$set` update built by `updateBoard`. -/
def applyBoardUpdate (b : BoardRec) (title description : Option String)
    (members : Option (List Nat)) : BoardRec :=
  { b with title := title.getD b.title,
           description := description.getD b.description,
           members := members.getD b.members }

/-- Handler `updateBoard`: 404 on a missing board or workspace, 403 for a
non-member non-admin, 403 when the requester is neither board owner nor
workspace-role admin nor global admin, 400 when a supplied member list
contains a user outside the workspace member list; otherwise applies the
`$set` update. -/
def updateBoard (reqId : Nat) (reqRole : String) (boardId : Nat)
    (title description : Option String) (members : Option (List Nat))
    (db : DB) : Nat × DB :=
  match db.boards.find? (fun b => b.id == boardId) with
  | none => (404, db)
  | some board =>
    match db.workspaces.find? (fun w => w.id == board.workspace) with
    | none => (404, db)
    | some workspace =>
      if !(workspace.members.any (fun m => m.user == reqId)) && reqRole != "admin" then
        (403, db)
      else
        let isWorkspaceAdmin := workspace.members.any (fun m =>
          m.user == reqId && m.role == "admin")
        if board.owner != reqId && !isWorkspaceAdmin && reqRole != "admin" then (403, db)
        else
          let invalid : Bool :=
            match members with
            | some ms =>
              let wsIds := workspace.members.map (fun m => m.user)
              ms.any (fun m => !(wsIds.contains m))
            | none => false
          if invalid then (400, db)
          else
            (200, { db with boards := db.boards.map (fun b =>
              if b.id == boardId then applyBoardUpdate b title description members else b) })

/-- Handler `sendBoardInvite` (`POST /boards/:boardId/invite`): 404 on a missing
board, workspace or invited user; 403 when the requester is neither a
workspace member nor a global admin; 400 when the invited user is already a
board member; otherwise appends the invited user to the board's member list.
Note: no check that the invited user belongs to the workspace. -/
def sendBoardInvite (reqId : Nat) (reqRole : String) (boardId userId : Nat)
    (db : DB) : Nat × DB :=
  match db.boards.find? (fun b => b.id == boardId) with
  | none => (404, db)
  | some board =>
    match db.workspaces.find? (fun w => w.id == board.workspace) with
    | none => (404, db)
    | some workspace =>
      if !(workspace.members.any (fun m => m.user == reqId)) && reqRole != "admin" then
        (403, db)
      else
        match db.users.find? (fun u => u.id == userId) with
        | none => (404, db)
        | some _ =>
          if board.members.contains userId then (400, db)
          else
            (200, { db with boards := db.boards.map (fun b =>
              if b.id == boardId then { b with members := b.members ++ [userId] } else b) })

/-! ## taskController (`createTask`, `updateTask`) -/

/-- Handler `createTask`: 400 without a board id, 404 on a missing board or
workspace, 403 for a non-member non-admin, 400 when an assignee is outside
the workspace member list; otherwise creates the task (status defaulting to
`todo`). -/
def createTask (reqId : Nat) (reqRole : String) (boardId : Option Nat)
    (title description : String) (status : Option String)
    (assignedTo : Option (List Nat)) (newTaskId : Nat) (db : DB) : Nat × DB :=
  match boardId with
  | none => (400, db)
  | some bid =>
    match db.boards.find? (fun b => b.id == bid) with
    | none => (404, db)
    | some boardDoc =>
      match db.workspaces.find? (fun w => w.id == boardDoc.workspace) with
      | none => (404, db)
      | some w =>
        if !(w.members.any (fun m => m.user == reqId)) && reqRole != "admin" then (403, db)
        else
          let memberIds := w.members.map (fun m => m.user)
          if (assignedTo.getD []).any (fun u => !(memberIds.contains u)) then (400, db)
          else
            let task : TaskRec :=
              { id := newTaskId, title := title, description := description,
                status := jsOrDefault status "todo", board := bid,
                assignedTo := assignedTo.getD [], createdBy := reqId }
            (200, { db with tasks := db.tasks ++ [task] })

/-- The `$set` update built by `updateTask` (attachment handling omitted: the
upload collaborator is out of the verified scope). -/
def applyTaskUpdate (t : TaskRec) (title description status : Option String)
    (assignedTo : Option (List Nat)) (newBoardId : Option Nat) : TaskRec :=
  { t with title := title.getD t.title,
           description := description.getD t.description,
           status := status.getD t.status,
           assignedTo := assignedTo.getD t.assignedTo,
           board := newBoardId.getD t.board }

/-- Final stage of `updateTask`: assignee validation against the workspace
member list, then the `$set` update. -/
def updateTaskFinish (taskId : Nat) (title description status : Option String)
    (assignedTo : Option (List Nat)) (newBoardId : Option Nat)
    (workspace : WorkspaceRec) (db : DB) : Nat × DB :=
  let memberIds := workspace.members.map (fun m => m.user)
  if (assignedTo.getD []).any (fun u => !(memberIds.contains u)) then (400, db)
  else
    (200, { db with tasks := db.tasks.map (fun t =>
      if t.id == taskId then applyTaskUpdate t title description status assignedTo newBoardId
      else t) })

/-- Handler `updateTask`: resolves task, current board and workspace (404s),
requires workspace membership or global admin (403); a request changing only
the board field is allowed to any workspace member, while any other update
additionally requires creator, assignee, workspace-role admin or global
admin (403 otherwise); a board change must stay within the same workspace
(400 otherwise); assignees must be workspace members (400); then applies the
`$set` update. -/
def updateTask (reqId : Nat) (reqRole : String) (taskId : Nat)
    (title description status : Option String) (assignedTo : Option (List Nat))
    (newBoardId : Option Nat) (db : DB) : Nat × DB :=
  match db.tasks.find? (fun t => t.id == taskId) with
  | none => (404, db)
  | some task =>
    match db.boards.find? (fun b => b.id == task.board) with
    | none => (404, db)
    | some currentBoard =>
      match db.workspaces.find? (fun w => w.id == currentBoard.workspace) with
      | none => (404, db)
      | some workspace =>
        if !(workspace.members.any (fun m => m.user == reqId)) && reqRole != "admin" then
          (403, db)
        else
          let isOnlyBoardChange :=
            (match newBoardId with
             | some nb => nb != task.board
             | none => false) &&
            title.isNone && description.isNone && status.isNone && assignedTo.isNone
          let authorized : Bool :=
            if isOnlyBoardChange then true
            else
              let isWorkspaceAdmin := workspace.members.any (fun m =>
                m.user == reqId && m.role == "admin")
              let isAssigned := task.assignedTo.contains reqId
              reqRole == "admin" || task.createdBy == reqId || isWorkspaceAdmin || isAssigned
          if !authorized then (403, db)
          else
            match newBoardId with
            | some nb =>
              if nb != task.board then
                match db.boards.find? (fun b => b.id == nb) with
                | none => (404, db)
                | some newBoard =>
                  match db.workspaces.find? (fun w => w.id == newBoard.workspace) with
                  | none => (404, db)
                  | some newWorkspace =>
                    if newWorkspace.id != workspace.id then (400, db)
                    else updateTaskFinish taskId title description status assignedTo
                      newBoardId workspace db
              else updateTaskFinish taskId title description status assignedTo
                newBoardId workspace db
            | none => updateTaskFinish taskId title description status assignedTo
                newBoardId workspace db

/-! ## Theorems -/

/-- C3: For every invitation record whose stored `tokenExpiresAt` lies before the
current time, `acceptInvitation` with that record's token fails (an error
status, at least 400) and performs no state change, regardless of the
record's prior status. -/
theorem acceptInvitation_expired_fails (db : DB) (tok : String) (now : Nat)
    (t : TeamRec) (htmem : t ∈ db.teams) (htok : t.invitationToken = tok)
    (huniq : ∀ r ∈ db.teams, r.invitationToken = tok → r = t)
    (hexp : t.tokenExpiresAt < now) :
    400 ≤ (acceptInvitation tok now db).1 ∧ (acceptInvitation tok now db).2 = db := by
  unfold acceptInvitation
  by_cases h0 : tok = ""
  · simp [h0]
  · rw [if_neg (by simpa using h0)]
    cases hfind : db.teams.find? (fun r => r.invitationToken == tok && r.status == "invited") with
    | none => simp
    | some u =>
      have hu := List.find?_some hfind
      have humem := List.mem_of_find?_eq_some hfind
      simp only [Bool.and_eq_true, beq_iff_eq] at hu
      have hut : u = t := huniq u humem hu.1
      subst hut
      simp [hexp]

/-- C2: Redeeming the same unexpired invitation token twice: the first
`acceptInvitation` call finds the record in status `invited`, answers 200 and
transitions it to `accepted` stamping `acceptedAt`; the second call with the
same token fails with 404 ("not found or already accepted") and changes
nothing. -/
theorem acceptInvitation_twice (db : DB) (tok : String) (now now2 : Nat)
    (t : TeamRec)
    (hfind : db.teams.find? (fun r => r.invitationToken == tok && r.status == "invited") = some t)
    (hexp : ¬ t.tokenExpiresAt < now)
    (htokuniq : ∀ r ∈ db.teams, r.invitationToken = tok → r.id = t.id)
    (h0 : tok ≠ "") :
    (acceptInvitation tok now db).1 = 200 ∧
    (∀ r ∈ (acceptInvitation tok now db).2.teams, r.id = t.id →
        r.status = "accepted" ∧ r.acceptedAt = some now) ∧
    (acceptInvitation tok now2 (acceptInvitation tok now db).2).1 = 404 ∧
    (acceptInvitation tok now2 (acceptInvitation tok now db).2).2 =
      (acceptInvitation tok now db).2 := by
  have hres : acceptInvitation tok now db =
      (200, { db with teams := db.teams.map (fun r =>
        if r.id == t.id then
          { t with status := "accepted", acceptedAt := some now,
                   member_id :=
                     match t.member_id with
                     | some m => some m
                     | none => (db.users.find? (fun u => u.email == t.invitedEmail)).map
                         (fun u => u.id) }
        else r) }) := by
    unfold acceptInvitation
    rw [if_neg (by simpa using h0), hfind]
    dsimp only
    simp only [gt_iff_lt]
    rw [if_neg hexp]
  refine ⟨by rw [hres], ?_, ?_, ?_⟩
  · intro r hr hrid
    rw [hres] at hr
    simp only [List.mem_map] at hr
    obtain ⟨s, hs, hsr⟩ := hr
    by_cases hcase : s.id = t.id
    · rw [if_pos (by simpa using hcase)] at hsr
      subst hsr
      exact ⟨rfl, rfl⟩
    · rw [if_neg (by simpa using hcase)] at hsr
      subst hsr
      exact absurd hrid hcase
  all_goals
    have hnone : (acceptInvitation tok now db).2.teams.find?
        (fun r => r.invitationToken == tok && r.status == "invited") = none := by
      refine List.find?_eq_none.2 ?_
      intro r hr
      rw [hres] at hr
      simp only [List.mem_map] at hr
      obtain ⟨s, hs, hsr⟩ := hr
      by_cases hcase : s.id = t.id
      · rw [if_pos (by simpa using hcase)] at hsr
        subst hsr
        simp
      · rw [if_neg (by simpa using hcase)] at hsr
        subst hsr
        simp only [Bool.and_eq_true, beq_iff_eq, not_and]
        intro hst
        exact absurd (htokuniq s hs hst) hcase
  · conv_lhs => rw [acceptInvitation]
    rw [if_neg (by simpa using h0), hnone]
  · conv_lhs => rw [acceptInvitation]
    rw [if_neg (by simpa using h0), hnone]

/-- Concrete record for the C2 witness. -/
def recC2 : TeamRec :=
  { id := 10, inviting_id := 1, member_id := none, invitedEmail := "a@x.com",
    status := "invited", invitationToken := "tk", invitedAt := 0,
    acceptedAt := none, tokenExpiresAt := 1000 }

/-- Concrete database for the C2 witness. -/
def dbC2 : DB :=
  { users := [], teams := [recC2], workspaces := [], boards := [], tasks := [] }

/-- C2 witness: the double-redemption theorem at a concrete database. -/
theorem acceptInvitation_twice_witness :
    (acceptInvitation "tk" 5 dbC2).1 = 200 ∧
    (∀ r ∈ (acceptInvitation "tk" 5 dbC2).2.teams, r.id = recC2.id →
        r.status = "accepted" ∧ r.acceptedAt = some 5) ∧
    (acceptInvitation "tk" 6 (acceptInvitation "tk" 5 dbC2).2).1 = 404 ∧
    (acceptInvitation "tk" 6 (acceptInvitation "tk" 5 dbC2).2).2 =
      (acceptInvitation "tk" 5 dbC2).2 :=
  acceptInvitation_twice dbC2 "tk" 5 6 recC2 (by decide) (by decide)
    (by decide) (by decide)

/-- Concrete record for the C3 witness: already `accepted`, expired. -/
def recC3 : TeamRec :=
  { id := 11, inviting_id := 1, member_id := some 3, invitedEmail := "b@x.com",
    status := "accepted", invitationToken := "tk3", invitedAt := 0,
    acceptedAt := some 4, tokenExpiresAt := 10 }

/-- Concrete database for the C3 witness. -/
def dbC3 : DB :=
  { users := [], teams := [recC3], workspaces := [], boards := [], tasks := [] }

/-- C3 witness: the expired-token theorem at a concrete database whose record is
already `accepted`. -/
theorem acceptInvitation_expired_fails_witness :
    400 ≤ (acceptInvitation "tk3" 99 dbC3).1 ∧
    (acceptInvitation "tk3" 99 dbC3).2 = dbC3 :=
  acceptInvitation_expired_fails dbC3 "tk3" 99 recC3 (by decide) (by decide)
    (by decide) (by decide)

/-- Concrete user for the C1 counterexample. -/
def userC1 : UserRec :=
  { id := 1, name := "u", email := "a@x.com", password := "pw", role := "user" }

/-- Concrete record for the C1 counterexample: null member link, status
`invited`, email matching the registered user. -/
def recC1 : TeamRec :=
  { id := 10, inviting_id := 2, member_id := none, invitedEmail := "a@x.com",
    status := "invited", invitationToken := "t1", invitedAt := 0,
    acceptedAt := none, tokenExpiresAt := 1000 }

/-- Concrete database for the C1 counterexample. -/
def dbC1 : DB :=
  { users := [userC1], teams := [recC1], workspaces := [], boards := [], tasks := [] }

/-- C1 counterexample: an invitation record with `invitedEmail = "a@x.com"` and
a null member link exists (status `invited`), and logging in with that email
succeeds (200) — yet the record's member link is NOT set: the login backfill
only touches records whose status is `accepted`, so the claim's "logging in
with email E sets that record's member link" fails here. -/
theorem login_does_not_link_invited :
    recC1.invitedEmail = "a@x.com" ∧ recC1.member_id = none ∧
    (login "a@x.com" "pw" dbC1).1 = 200 ∧
    (login "a@x.com" "pw" dbC1).2.teams = [recC1] := by decide

/-- The login backfill is idempotent on a single record. -/
theorem loginLink_idem (e : String) (uid : Nat) (t : TeamRec) :
    loginLink e uid (loginLink e uid t) = loginLink e uid t := by
  unfold loginLink
  by_cases h : (t.invitedEmail == normEmail e && t.member_id.isNone &&
      t.status == "accepted") = true
  · rw [if_pos h]
    rw [if_neg (by simp)]
  · rw [if_neg h, if_neg h]

/-- C1 (amended): registering with email E links every invitation record whose
normalised invited email is E and whose member link is null, regardless of
status, to the new user, and a repeated registration attempt with the same
email is rejected (400) without further change; logging in with email E links
only such records whose status is `accepted`, leaves all other records
untouched, and a second login changes nothing — so each link is set exactly
once. -/
theorem register_login_link (dbr dbl : DB) (n e p rn rp : String)
    (ro : Option String) (newId rid : Nat) (u : UserRec)
    (hr : dbr.users.find? (fun x => x.email == e) = none)
    (hl : dbl.users.find? (fun x => x.email == e) = some u)
    (hp : p = u.password) :
    (register n e p ro newId dbr).1 = 200 ∧
    (register n e p ro newId dbr).2.teams = dbr.teams.map (registerLink e newId) ∧
    (∀ t ∈ dbr.teams, t.invitedEmail = normEmail e → t.member_id = none →
        { t with member_id := some newId } ∈ (register n e p ro newId dbr).2.teams) ∧
    register rn e rp ro rid (register n e p ro newId dbr).2 =
      (400, (register n e p ro newId dbr).2) ∧
    (login e p dbl).1 = 200 ∧
    (login e p dbl).2.teams = dbl.teams.map (loginLink e u.id) ∧
    (∀ t ∈ dbl.teams, t.invitedEmail = normEmail e → t.member_id = none →
        t.status = "accepted" →
        { t with member_id := some u.id } ∈ (login e p dbl).2.teams) ∧
    (∀ t ∈ dbl.teams,
        ¬(t.invitedEmail = normEmail e ∧ t.member_id = none ∧ t.status = "accepted") →
        t ∈ (login e p dbl).2.teams) ∧
    login e p (login e p dbl).2 = (200, (login e p dbl).2) := by
  have hreg : register n e p ro newId dbr =
      (200, { dbr with
        users := dbr.users ++ [mkUserRec n e p ro newId],
        teams := dbr.teams.map (registerLink e newId) }) := by
    unfold register
    rw [hr]
  have hlog : login e p dbl =
      (200, { dbl with teams := dbl.teams.map (loginLink e u.id) }) := by
    unfold login
    rw [hl]
    dsimp only
    rw [if_pos (show (p == u.password) = true by simpa using hp)]
  refine ⟨by rw [hreg], by rw [hreg], ?_, ?_, by rw [hlog], by rw [hlog], ?_, ?_, ?_⟩
  · intro t ht hmail hnull
    rw [hreg]
    refine List.mem_map.2 ⟨t, ht, ?_⟩
    unfold registerLink
    rw [if_pos (by simp [hmail, hnull])]
  · rw [hreg]
    unfold register
    rw [List.find?_append, hr]
    simp [mkUserRec]
  · intro t ht hmail hnull hacc
    rw [hlog]
    refine List.mem_map.2 ⟨t, ht, ?_⟩
    unfold loginLink
    rw [if_pos (by simp [hmail, hnull, hacc])]
  · intro t ht hnot
    rw [hlog]
    refine List.mem_map.2 ⟨t, ht, ?_⟩
    unfold loginLink
    rw [if_neg ?_]
    intro hcond
    simp only [Bool.and_eq_true, beq_iff_eq, Option.isNone_iff_eq_none] at hcond
    exact hnot ⟨hcond.1.1, hcond.1.2, hcond.2⟩
  · have hmapidem : ∀ l : List TeamRec,
        (l.map (loginLink e u.id)).map (loginLink e u.id) = l.map (loginLink e u.id) := by
      intro l
      induction l with
      | nil => rfl
      | cons a tl ih => simp [loginLink_idem, ih]
    rw [hlog]
    unfold login
    dsimp only
    rw [hl]
    dsimp only
    rw [if_pos (show (p == u.password) = true by simpa using hp)]
    rw [hmapidem]

/-- Concrete user for the C1 witness. -/
def userC1w : UserRec :=
  { id := 4, name := "w", email := "c@x.com", password := "pw", role := "user" }

/-- Concrete record for the C1 witness's register half (status `declined`, so
linking-regardless-of-status is exercised). -/
def recC1r : TeamRec :=
  { id := 20, inviting_id := 5, member_id := none, invitedEmail := "c@x.com",
    status := "declined", invitationToken := "t20", invitedAt := 0,
    acceptedAt := none, tokenExpiresAt := 9 }

/-- Concrete record for the C1 witness's login half (status `accepted`). -/
def recC1l : TeamRec :=
  { id := 21, inviting_id := 5, member_id := none, invitedEmail := "c@x.com",
    status := "accepted", invitationToken := "t21", invitedAt := 0,
    acceptedAt := some 1, tokenExpiresAt := 9 }

/-- Concrete database for the C1 witness's register half. -/
def dbC1r : DB :=
  { users := [], teams := [recC1r], workspaces := [], boards := [], tasks := [] }

/-- Concrete database for the C1 witness's login half. -/
def dbC1l : DB :=
  { users := [userC1w], teams := [recC1l], workspaces := [], boards := [], tasks := [] }

/-- C1 witness: the amended linking theorem at concrete databases. -/
theorem register_login_link_witness :
    (register "w" "c@x.com" "pw" none 4 dbC1r).1 = 200 ∧
    (register "w" "c@x.com" "pw" none 4 dbC1r).2.teams =
      dbC1r.teams.map (registerLink "c@x.com" 4) ∧
    (∀ t ∈ dbC1r.teams, t.invitedEmail = normEmail "c@x.com" → t.member_id = none →
        { t with member_id := some 4 } ∈ (register "w" "c@x.com" "pw" none 4 dbC1r).2.teams) ∧
    register "w2" "c@x.com" "pw2" none 6 (register "w" "c@x.com" "pw" none 4 dbC1r).2 =
      (400, (register "w" "c@x.com" "pw" none 4 dbC1r).2) ∧
    (login "c@x.com" "pw" dbC1l).1 = 200 ∧
    (login "c@x.com" "pw" dbC1l).2.teams = dbC1l.teams.map (loginLink "c@x.com" userC1w.id) ∧
    (∀ t ∈ dbC1l.teams, t.invitedEmail = normEmail "c@x.com" → t.member_id = none →
        t.status = "accepted" →
        { t with member_id := some userC1w.id } ∈ (login "c@x.com" "pw" dbC1l).2.teams) ∧
    (∀ t ∈ dbC1l.teams,
        ¬(t.invitedEmail = normEmail "c@x.com" ∧ t.member_id = none ∧ t.status = "accepted") →
        t ∈ (login "c@x.com" "pw" dbC1l).2.teams) ∧
    login "c@x.com" "pw" (login "c@x.com" "pw" dbC1l).2 =
      (200, (login "c@x.com" "pw" dbC1l).2) :=
  register_login_link dbC1r dbC1l "w" "c@x.com" "pw" "w2" "pw2" none 4 6 userC1w
    (by decide) (by decide) (by decide)

/-- At most one invitation record per (inviter, invited-email) pair, as a
property of a team-record list. -/
def pairUniqueL (l : List TeamRec) : Prop :=
  ∀ r1 ∈ l, ∀ r2 ∈ l,
    r1.inviting_id = r2.inviting_id → r1.invitedEmail = r2.invitedEmail → r1 = r2

/-- The pair-uniqueness invariant on a database snapshot. -/
def pairUnique (db : DB) : Prop := pairUniqueL db.teams

/-- Appending a record whose (inviter, email) pair is fresh preserves pair
uniqueness. -/
theorem pairUniqueL_append (l : List TeamRec) (r : TeamRec)
    (hno : l.any (fun t =>
      t.inviting_id == r.inviting_id && t.invitedEmail == r.invitedEmail) = false)
    (h : pairUniqueL l) : pairUniqueL (l ++ [r]) := by
  have hnomem : ∀ t ∈ l, ¬(t.inviting_id = r.inviting_id ∧ t.invitedEmail = r.invitedEmail) := by
    intro t ht hc
    have := List.any_eq_false.1 hno t ht
    simp only [Bool.and_eq_true, beq_iff_eq] at this
    exact this ⟨hc.1, hc.2⟩
  intro r1 h1 r2 h2 hi he
  simp only [List.mem_append, List.mem_singleton] at h1 h2
  rcases h1 with h1 | h1 <;> rcases h2 with h2 | h2
  · exact h r1 h1 r2 h2 hi he
  · subst h2
    exact absurd ⟨hi, he⟩ (hnomem r1 h1)
  · subst h1
    exact absurd ⟨hi.symm, he.symm⟩ (hnomem r2 h2)
  · subst h1
    subst h2
    rfl

/-- C4: While an `invited` or `accepted` record for (inviter, email) exists,
`sendInvite` creates nothing: the state is unchanged, the accepted case is
rejected with 400 and the pending case resends with 200.  Moreover
`sendInvite` always preserves the at-most-one-record-per-pair invariant. -/
theorem sendInvite_no_duplicate (db : DB) (i newRecId now : Nat) (e tk tk2 : String)
    (rec0 : TeamRec)
    (he : jsIncludesAtSign e = true)
    (hfind : db.teams.find? (fun t =>
        t.inviting_id == i && t.invitedEmail == normEmail e &&
        (t.status == "invited" || t.status == "accepted")) = some rec0) :
    (sendInvite i e newRecId tk tk2 now db).2 = db ∧
    (sendInvite i e newRecId tk tk2 now db).1 =
      (if rec0.status == "accepted" then 400 else 200) ∧
    (∀ db2 : DB, pairUnique db2 → pairUnique (sendInvite i e newRecId tk tk2 now db2).2) := by
  have hred : sendInvite i e newRecId tk tk2 now db =
      if rec0.status == "accepted" then (400, db) else (200, db) := by
    unfold sendInvite
    rw [if_neg (by simp [he])]
    dsimp only
    rw [hfind]
  refine ⟨?_, ?_, ?_⟩
  · rw [hred]
    split <;> rfl
  · rw [hred]
    split <;> rfl
  · intro db2 hdb2
    unfold sendInvite
    dsimp only
    split
    · exact hdb2
    · split
      · split
        · exact hdb2
        · exact hdb2
      · split
        · split
          · exact hdb2
          · next h2 =>
            have h2' := eq_false_of_ne_true h2
            unfold teamCreateThrows at h2'
            have hno := (Bool.or_eq_false_iff.1 h2').1
            exact pairUniqueL_append db2.teams _ hno hdb2
        · next h1 =>
          have h1' := eq_false_of_ne_true h1
          unfold teamCreateThrows at h1'
          have hno := (Bool.or_eq_false_iff.1 h1').1
          exact pairUniqueL_append db2.teams _ hno hdb2

/-- Concrete record for the C4 witness (pending invitation). -/
def recC4 : TeamRec :=
  { id := 30, inviting_id := 7, member_id := none, invitedEmail := "d@x.com",
    status := "invited", invitationToken := "t30", invitedAt := 0,
    acceptedAt := none, tokenExpiresAt := 99 }

/-- Concrete database for the C4 witness. -/
def dbC4 : DB :=
  { users := [], teams := [recC4], workspaces := [], boards := [], tasks := [] }

/-- C4 witness: the no-duplicate theorem at a concrete database with a pending
invitation for the pair. -/
theorem sendInvite_no_duplicate_witness :
    (sendInvite 7 "d@x.com" 31 "t31" "t32" 1 dbC4).2 = dbC4 ∧
    (sendInvite 7 "d@x.com" 31 "t31" "t32" 1 dbC4).1 =
      (if recC4.status == "accepted" then 400 else 200) ∧
    (∀ db2 : DB, pairUnique db2 → pairUnique (sendInvite 7 "d@x.com" 31 "t31" "t32" 1 db2).2) :=
  sendInvite_no_duplicate dbC4 7 31 1 "d@x.com" "t31" "t32" recC4 (by decide) (by decide)

/-- Sole workspace member in the C5 scenarios. -/
def wmC5 : WsMember := { user := 1, role := "member" }

/-- Workspace for the C5 scenarios: only user 1 is a member. -/
def wsC5 : WorkspaceRec := { id := 1, members := [wmC5] }

/-- Board for the C5 scenarios, inside workspace 1. -/
def boardC5 : BoardRec :=
  { id := 7, title := "b", description := "", workspace := 1, owner := 1, members := [1] }

/-- Database for the C5 scenarios. -/
def dbC5 : DB :=
  { users := [], teams := [], workspaces := [wsC5], boards := [boardC5], tasks := [] }

/-- C5 counterexample: user 2 is not in workspace 1's member list, yet with the
global `admin` role their `createBoard` request against that workspace (and
their `createTask` request against board 7 under it) succeeds with 200 and
creates a document — contradicting the claim that every request by a user
outside the member list is rejected with 403 and creates nothing. -/
theorem create_by_admin_nonmember_succeeds :
    wsC5.members.any (fun m => m.user == 2) = false ∧
    (createBoard 2 "admin" (some 1) "t" "d" 8 dbC5).1 = 200 ∧
    (createBoard 2 "admin" (some 1) "t" "d" 8 dbC5).2.boards.length = 2 ∧
    (createTask 2 "admin" (some 7) "t" "d" none none 9 dbC5).1 = 200 ∧
    (createTask 2 "admin" (some 7) "t" "d" none none 9 dbC5).2.tasks.length = 1 := by
  decide

/-- C5 (amended): for every workspace W and user U neither in W's member list
nor carrying the global `admin` role, a `createBoard` request targeting W and
a `createTask` request targeting a board under W are both rejected with 403
and create nothing. -/
theorem nonmember_create_forbidden (db : DB) (reqId : Nat) (reqRole : String)
    (w : WorkspaceRec) (b : BoardRec)
    (hw : db.workspaces.find? (fun x => x.id == w.id) = some w)
    (hb : db.boards.find? (fun x => x.id == b.id) = some b)
    (hbw : b.workspace = w.id)
    (hmem : w.members.any (fun m => m.user == reqId) = false)
    (hrole : reqRole ≠ "admin")
    (title desc : String) (st : Option String) (asg : Option (List Nat)) (nid : Nat) :
    createBoard reqId reqRole (some w.id) title desc nid db = (403, db) ∧
    createTask reqId reqRole (some b.id) title desc st asg nid db = (403, db) := by
  have hcond : (!(w.members.any (fun m => m.user == reqId)) && reqRole != "admin") = true := by
    simp [hmem, hrole]
  constructor
  · unfold createBoard
    dsimp only
    rw [hw]
    dsimp only
    rw [if_pos hcond]
  · unfold createTask
    dsimp only
    rw [hb]
    dsimp only
    rw [hbw, hw]
    dsimp only
    rw [if_pos hcond]

/-- C5 witness: the amended theorem at a concrete non-member, non-admin
requester (user 3, role `user`). -/
theorem nonmember_create_forbidden_witness :
    createBoard 3 "user" (some wsC5.id) "t" "d" 8 dbC5 = (403, dbC5) ∧
    createTask 3 "user" (some boardC5.id) "t" "d" none none 9 dbC5 = (403, dbC5) :=
  nonmember_create_forbidden dbC5 3 "user" wsC5 boardC5 (by decide) (by decide)
    (by decide) (by decide) (by decide) "t" "d" none none 9

/-- C6: For a requester who is a mere workspace member (not global admin, not
workspace-role admin, not the task's creator, not an assignee), an
`updateTask` request that changes only the task's board: is rejected (400,
no change) when the destination board's workspace differs from the current
one; succeeds (200) and moves the task when the destination board is in the
same workspace; while a full edit (changing the title, alone or together
with a board move) is rejected with 403. -/
theorem updateTask_move_semantics (db : DB) (reqId : Nat) (reqRole : String)
    (task : TaskRec) (cb nb : BoardRec) (ws nws : WorkspaceRec)
    (htask : db.tasks.find? (fun t => t.id == task.id) = some task)
    (hcb : db.boards.find? (fun b => b.id == task.board) = some cb)
    (hws : db.workspaces.find? (fun w => w.id == cb.workspace) = some ws)
    (hnb : db.boards.find? (fun b => b.id == nb.id) = some nb)
    (hnws : db.workspaces.find? (fun w => w.id == nb.workspace) = some nws)
    (hnbne : nb.id ≠ task.board)
    (hmem : ws.members.any (fun m => m.user == reqId) = true)
    (hrole : reqRole ≠ "admin")
    (hwsadmin : ws.members.any (fun m => m.user == reqId && m.role == "admin") = false)
    (hnc : task.createdBy ≠ reqId)
    (hna : task.assignedTo.contains reqId = false) :
    (nws.id ≠ ws.id →
      updateTask reqId reqRole task.id none none none none (some nb.id) db = (400, db)) ∧
    (nws.id = ws.id →
      (updateTask reqId reqRole task.id none none none none (some nb.id) db).1 = 200 ∧
      (updateTask reqId reqRole task.id none none none none (some nb.id) db).2.tasks =
        db.tasks.map (fun t => if t.id == task.id then { t with board := nb.id } else t)) ∧
    (∀ s : String,
      updateTask reqId reqRole task.id (some s) none none none none db = (403, db)) ∧
    (∀ s : String,
      updateTask reqId reqRole task.id (some s) none none none (some nb.id) db = (403, db)) := by
  refine ⟨?_, ?_, ?_, ?_⟩
  · intro hdiff
    simp [updateTask, htask, hcb, hws, hnb, hnws, hmem, hnbne, hdiff]
  · intro hsame
    simp [updateTask, updateTaskFinish, applyTaskUpdate, htask, hcb, hws, hnb, hnws,
      hmem, hnbne, hsame]
  · intro s
    have hna' : reqId ∉ task.assignedTo := by simpa using hna
    simp [updateTask, htask, hcb, hws, hmem, hrole, hnc, hwsadmin, hna']
  · intro s
    have hna' : reqId ∉ task.assignedTo := by simpa using hna
    simp [updateTask, htask, hcb, hws, hmem, hrole, hnc, hwsadmin, hna']

/-- Second workspace member for C6: a mere member, requester in the witness. -/
def wmC6 : WsMember := { user := 2, role := "member" }

/-- Workspace for the C6 witness: users 1 and 2, no workspace admins. -/
def wsC6 : WorkspaceRec := { id := 1, members := [wmC5, wmC6] }

/-- Current board of the C6 witness task. -/
def cbC6 : BoardRec :=
  { id := 7, title := "a", description := "", workspace := 1, owner := 1, members := [1] }

/-- Destination board for the C6 witness, in the same workspace. -/
def nbC6 : BoardRec :=
  { id := 8, title := "b", description := "", workspace := 1, owner := 1, members := [1] }

/-- Task for the C6 witness: created by user 1, no assignees, on board 7. -/
def taskC6 : TaskRec :=
  { id := 40, title := "t", description := "", status := "todo", board := 7,
    assignedTo := [], createdBy := 1 }

/-- Database for the C6 witness. -/
def dbC6 : DB :=
  { users := [], teams := [], workspaces := [wsC6], boards := [cbC6, nbC6],
    tasks := [taskC6] }

/-- C6 witness: the move-semantics theorem at a concrete same-workspace move by
mere member 2. -/
theorem updateTask_move_semantics_witness :
    (wsC6.id ≠ wsC6.id →
      updateTask 2 "user" taskC6.id none none none none (some nbC6.id) dbC6 = (400, dbC6)) ∧
    (wsC6.id = wsC6.id →
      (updateTask 2 "user" taskC6.id none none none none (some nbC6.id) dbC6).1 = 200 ∧
      (updateTask 2 "user" taskC6.id none none none none (some nbC6.id) dbC6).2.tasks =
        dbC6.tasks.map (fun t => if t.id == taskC6.id then { t with board := nbC6.id } else t)) ∧
    (∀ s : String,
      updateTask 2 "user" taskC6.id (some s) none none none none dbC6 = (403, dbC6)) ∧
    (∀ s : String,
      updateTask 2 "user" taskC6.id (some s) none none none (some nbC6.id) dbC6 = (403, dbC6)) :=
  updateTask_move_semantics dbC6 2 "user" taskC6 cbC6 nbC6 wsC6 wsC6
    (by decide) (by decide) (by decide) (by decide) (by decide) (by decide)
    (by decide) (by decide) (by decide) (by decide) (by decide)

/-- Existing user for the C7 scenarios. -/
def userC7 : UserRec :=
  { id := 1, name := "u", email := "e@x.com", password := "h", role := "user" }

/-- Database for the C7 scenarios. -/
def dbC7 : DB :=
  { users := [userC7], teams := [], workspaces := [], boards := [], tasks := [] }

/-- C7 counterexample: registering the already-taken email `e@x.com` through
`createUser` (the handler behind `POST /users`) yields a 500 server error,
not a 400-level client error: the handler never checks for duplicates, so the
unique-index violation reaches its catch block. -/
theorem createUser_duplicate_email_500 :
    (createUser "n" "e@x.com" "p" none 2 dbC7).1 = 500 ∧
    ¬((createUser "n" "e@x.com" "p" none 2 dbC7).1 < 500) := by decide

/-- C7 (amended): registering with an email that already belongs to an existing
user is reported as 400 by `authController.register` (no state change), but
as a 500 server error by `userController.createUser` (also no state change),
where the unique-index violation escapes to the catch handler. -/
theorem duplicate_email_reporting (db : DB) (n e p : String) (ro : Option String)
    (nid : Nat) (u : UserRec) (hu : u ∈ db.users) (he : u.email = e) :
    register n e p ro nid db = (400, db) ∧ createUser n e p ro nid db = (500, db) := by
  have htaken : userEmailTaken e db = true := by
    unfold userEmailTaken
    exact List.any_eq_true.2 ⟨u, hu, by simpa using he⟩
  constructor
  · unfold register
    cases hfind : db.users.find? (fun x => x.email == e) with
    | none =>
      exfalso
      have hne := List.find?_eq_none.1 hfind u hu
      simp [he] at hne
    | some v => rfl
  · unfold createUser
    rw [if_pos htaken]

/-- C7 witness: the amended reporting theorem at the concrete database with the
taken email. -/
theorem duplicate_email_reporting_witness :
    register "n" "e@x.com" "p" none 2 dbC7 = (400, dbC7) ∧
    createUser "n" "e@x.com" "p" none 2 dbC7 = (500, dbC7) :=
  duplicate_email_reporting dbC7 "n" "e@x.com" "p" none 2 userC7 (by decide) (by decide)

/-- C8: `getMyTeamMembers` returns exactly the requester's accepted, linked
invitation records: every returned entry derives from a team record whose
`inviting_id` is the requester, whose status is `accepted` and whose member
link is set; conversely every such record whose member and inviter users
exist contributes its entry; and the requester's global role plays no part
in the result, so an admin role does not widen the set. -/
theorem getMyTeamMembers_exact (db : DB) (reqId : Nat) (rho : String) :
    (∀ en ∈ (getMyTeamMembers reqId rho db).2, ∃ t ∈ db.teams,
        t.inviting_id = reqId ∧ t.status = "accepted" ∧ ∃ m, t.member_id = some m ∧
        ∃ mu, db.users.find? (fun u => u.id == m) = some mu ∧ en = entryOfRecord t mu) ∧
    (∀ t ∈ db.teams, t.inviting_id = reqId → t.status = "accepted" →
        ∀ m, t.member_id = some m →
        ∀ mu, db.users.find? (fun u => u.id == m) = some mu →
        (db.users.find? (fun u => u.id == reqId)).isSome = true →
        entryOfRecord t mu ∈ (getMyTeamMembers reqId rho db).2) ∧
    (∀ r2 : String, getMyTeamMembers reqId rho db = getMyTeamMembers reqId r2 db) := by
  refine ⟨?_, ?_, fun r2 => rfl⟩
  · intro en hen
    unfold getMyTeamMembers at hen
    dsimp only at hen
    rw [List.mem_filterMap] at hen
    obtain ⟨t, ht, hft⟩ := hen
    rw [List.mem_filter] at ht
    obtain ⟨htmem, hcond⟩ := ht
    simp only [Bool.and_eq_true, beq_iff_eq] at hcond
    refine ⟨t, htmem, hcond.1.1, hcond.2, ?_⟩
    cases hm : t.member_id with
    | none => rw [hm] at hft; exact absurd hft (by simp)
    | some m =>
      rw [hm] at hft
      dsimp only at hft
      cases hfu : db.users.find? (fun u => u.id == m) with
      | none => rw [hfu] at hft; exact absurd hft (by simp)
      | some mu =>
        rw [hfu] at hft
        dsimp only at hft
        refine ⟨m, rfl, mu, hfu, ?_⟩
        by_cases hi : (db.users.find? (fun u => u.id == t.inviting_id)).isSome = true
        · rw [if_pos hi] at hft
          exact (Option.some.injEq _ _ ▸ hft).symm
        · rw [if_neg hi] at hft
          exact absurd hft (by simp)
  · intro t ht hinv hst m hm mu hmu hinviter
    unfold getMyTeamMembers
    dsimp only
    rw [List.mem_filterMap]
    refine ⟨t, ?_, ?_⟩
    · rw [List.mem_filter]
      exact ⟨ht, by simp [hinv, hst, hm]⟩
    · rw [hm]
      dsimp only
      rw [hmu]
      dsimp only
      rw [hinv, if_pos hinviter]

/-- Inviter for the C8 witness. -/
def inviterC8 : UserRec :=
  { id := 1, name := "inv", email := "i@x.com", password := "p", role := "user" }

/-- Linked member for the C8 witness. -/
def memberC8 : UserRec :=
  { id := 2, name := "mem", email := "m@x.com", password := "p", role := "user" }

/-- Accepted, linked invitation record for the C8 witness. -/
def recC8 : TeamRec :=
  { id := 60, inviting_id := 1, member_id := some 2, invitedEmail := "m@x.com",
    status := "accepted", invitationToken := "t60", invitedAt := 1,
    acceptedAt := some 2, tokenExpiresAt := 9 }

/-- Database for the C8 witness. -/
def dbC8 : DB :=
  { users := [inviterC8, memberC8], teams := [recC8], workspaces := [],
    boards := [], tasks := [] }

/-- C8 witness: the completeness direction of the exactness theorem at a
concrete accepted record, via the theorem itself. -/
theorem getMyTeamMembers_exact_witness :
    entryOfRecord recC8 memberC8 ∈ (getMyTeamMembers 1 "user" dbC8).2 :=
  (getMyTeamMembers_exact dbC8 1 "user").2.1 recC8 (by decide) (by decide) (by decide)
    2 (by decide) memberC8 (by decide) (by decide)

/-- Existing user outside the workspace, for the C9 scenarios. -/
def userC9 : UserRec :=
  { id := 2, name := "x", email := "x@x.com", password := "p", role := "user" }

/-- Workspace for the C9 scenarios: only user 1 is a member. -/
def wsC9 : WorkspaceRec := { id := 1, members := [wmC5] }

/-- Board for the C9 scenarios, owned by user 1 with members [1]. -/
def boardC9 : BoardRec :=
  { id := 7, title := "b", description := "", workspace := 1, owner := 1, members := [1] }

/-- Database for the C9 scenarios. -/
def dbC9 : DB :=
  { users := [userC9], teams := [], workspaces := [wsC9], boards := [boardC9], tasks := [] }

/-- C9 counterexample: user 2 exists but is not in workspace 1's member list,
yet `sendBoardInvite` by board owner 1 succeeds (200) and appends user 2 to
the board's member list — no workspace-membership check is applied to the
invited user, contradicting the claim that every operation mutating a
board's member list rejects non-workspace members. -/
theorem sendBoardInvite_adds_nonmember :
    wsC9.members.any (fun m => m.user == 2) = false ∧
    (sendBoardInvite 1 "user" 7 2 dbC9).1 = 200 ∧
    (sendBoardInvite 1 "user" 7 2 dbC9).2.boards = [{ boardC9 with members := [1, 2] }] := by
  decide

/-- C9 (amended): of the board-member-mutating operations, only `updateBoard`
enforces that added members are workspace members (400 on a violating list,
no change); `sendBoardInvite` applies no such check and appends any existing
user who is not yet a board member — even one outside the workspace; and the
team `addMember` path never mutates state at all (it fails with 500 on any
found team record because the deployed team schema has no `createdBy` or
`members` paths). -/
theorem board_member_mutation (db : DB) (reqId : Nat) (reqRole : String)
    (board : BoardRec) (workspace : WorkspaceRec) (x : Nat) (ms : List Nat)
    (hb : db.boards.find? (fun b => b.id == board.id) = some board)
    (hw : db.workspaces.find? (fun w => w.id == board.workspace) = some workspace)
    (howner : board.owner = reqId)
    (hmem : workspace.members.any (fun m => m.user == reqId) = true)
    (hx : (workspace.members.map (fun m => m.user)).contains x = false)
    (hxin : x ∈ ms)
    (title description : Option String) :
    updateBoard reqId reqRole board.id title description (some ms) db = (400, db) ∧
    (∀ uid : Nat, ∀ v : UserRec, db.users.find? (fun u => u.id == uid) = some v →
      board.members.contains uid = false →
      (sendBoardInvite reqId reqRole board.id uid db).1 = 200 ∧
      (sendBoardInvite reqId reqRole board.id uid db).2.boards =
        db.boards.map (fun b =>
          if b.id == board.id then { b with members := b.members ++ [uid] } else b)) ∧
    (∀ tid uid2 : Nat, (addMember reqId reqRole tid uid2 db).2 = db) := by
  have hgate : (!(workspace.members.any (fun m => m.user == reqId)) &&
      reqRole != "admin") = false := by
    simp [hmem]
  refine ⟨?_, ?_, ?_⟩
  · unfold updateBoard
    rw [hb]
    dsimp only
    rw [hw]
    dsimp only
    rw [if_neg (by simp [hgate])]
    rw [if_neg (by simp [howner])]
    rw [if_pos ?_]
    refine List.any_eq_true.2 ⟨x, hxin, ?_⟩
    simp only [Bool.not_eq_true']
    exact hx
  · intro uid v hv huid
    unfold sendBoardInvite
    rw [hb]
    dsimp only
    rw [hw]
    dsimp only
    rw [if_neg (by simp [hgate]), hv]
    dsimp only
    rw [if_neg (by simpa using huid)]
    exact ⟨rfl, rfl⟩
  · intro tid uid2
    unfold addMember
    cases hf : db.teams.find? (fun t => t.id == tid) <;> rfl

/-- C9 witness: the amended theorem at the concrete C9 database — updateBoard
rejects member 5 (outside workspace 1), sendBoardInvite nevertheless adds
user 2. -/
theorem board_member_mutation_witness :
    updateBoard 1 "user" boardC9.id none none (some [5]) dbC9 = (400, dbC9) ∧
    (∀ uid : Nat, ∀ v : UserRec, dbC9.users.find? (fun u => u.id == uid) = some v →
      boardC9.members.contains uid = false →
      (sendBoardInvite 1 "user" boardC9.id uid dbC9).1 = 200 ∧
      (sendBoardInvite 1 "user" boardC9.id uid dbC9).2.boards =
        dbC9.boards.map (fun b =>
          if b.id == boardC9.id then { b with members := b.members ++ [uid] } else b)) ∧
    (∀ tid uid2 : Nat, (addMember 1 "user" tid uid2 dbC9).2 = dbC9) :=
  board_member_mutation dbC9 1 "user" boardC9 wsC9 5 [5] (by decide) (by decide)
    (by decide) (by decide) (by decide) (by decide) none none

/-- Requester in the C10 failing input. -/
def uaC10 : UserRec :=
  { id := 1, name := "a", email := "a@x.com", password := "p", role := "user" }

/-- A second inviter present in the C10 failing input. -/
def ubC10 : UserRec :=
  { id := 2, name := "b", email := "b@x.com", password := "p", role := "user" }

/-- The invited-and-registered user in the C10 failing input. -/
def ucC10 : UserRec :=
  { id := 3, name := "c", email := "c@x.com", password := "p", role := "user" }

/-- Requester 1's accepted record linking user 3: it satisfies every condition
of the claimed filter (inviter is the requester, member link set, status
accepted) and its member and inviter users exist. -/
def recC10a : TeamRec :=
  { id := 50, inviting_id := 1, member_id := some 3, invitedEmail := "c@x.com",
    status := "accepted", invitationToken := "tA", invitedAt := 2,
    acceptedAt := some 3, tokenExpiresAt := 9 }

/-- Inviter 2's accepted record linking user 3. -/
def recC10b : TeamRec :=
  { id := 51, inviting_id := 2, member_id := some 3, invitedEmail := "c@x.com",
    status := "accepted", invitationToken := "tB", invitedAt := 2,
    acceptedAt := some 3, tokenExpiresAt := 9 }

/-- Database for the C10 failing input. -/
def dbC10 : DB :=
  { users := [uaC10, ubC10, ucC10], teams := [recC10a, recC10b], workspaces := [],
    boards := [], tasks := [] }

/-- C10: the deployed `getAllUsers` answers 200 with an empty list on every
input, because its post-populate `matches` guard (`rawInvitingIdMatches`)
compares a stringified populated inviter document against the requester's id
string and never succeeds — contradicting the handler's own comments and
debug-verification loop, which state that the requester's own linked records
are returned.  In particular, at the failing input `dbC10` requester 1 owns
an accepted record whose member link points at the existing user 3, yet the
handler still returns no entries. -/
theorem getAllUsers_always_empty :
    (∀ (db : DB) (reqId : Nat) (rho : String), getAllUsers reqId rho db = (200, [])) ∧
    (recC10a ∈ dbC10.teams ∧ recC10a.inviting_id = 1 ∧ recC10a.status = "accepted" ∧
      recC10a.member_id = some 3 ∧ (dbC10.users.find? (fun u => u.id == 3)).isSome = true ∧
      getAllUsers 1 "user" dbC10 = (200, [])) := by
  constructor
  · intro db reqId rho
    unfold getAllUsers
    dsimp only
    rw [Prod.mk.injEq]
    refine ⟨rfl, List.filterMap_eq_nil_iff.2 ?_⟩
    intro t ht
    cases t.member_id with
    | none => rfl
    | some mid =>
      dsimp only
      cases db.users.find? (fun u => u.id == mid) with
      | none => rfl
      | some mu => simp [rawInvitingIdMatches]
  · exact ⟨by decide, by decide, by decide, by decide, by decide, by decide⟩

end TrelloApi
